import Mathlib

/-!
Verification of the wallet-web static HTTP server (src/wallet-web/serve.py).

The program is a single-file static server: a constant listener
configuration (port 8080, all interfaces, root directory = the directory
containing serve.py) and one override, `do_GET`, which rewrites the
request target before delegating to a generic static-file handler.

Request targets are modelled as `List Char`.  The rewrite rule is
translated directly from the source:

    if self.path == '/' or self.path.startswith('/?token='):
        self.path = '/public/simple-connect.html' + self.path.replace('/', '?', 1) \
                      if '?' in self.path else '/public/simple-connect.html'
    return super().do_GET()

(Python's conditional expression binds looser than `+`, so the branch that
fires when `'?' in self.path` prepends the page path to the whole target
with its first `/` replaced by `?`.)

The generic static handler it delegates to is not part of the repository;
it is modelled from the spec (see `serveStatic`).
-/

/-- Characters of a string literal, the carrier for request targets. -/
def str (s : String) : List Char := s.data

/-- Python `s.startswith(pre)`: `startsWith pre s` is true iff `pre` is an
initial segment of `s`. -/
def startsWith : List Char → List Char → Bool
  | [], _ => true
  | _ :: _, [] => false
  | a :: as, b :: bs => if a = b then startsWith as bs else false

/-- Python `c in s` for a single character `c`. -/
def containsChar (c : Char) : List Char → Bool
  | [] => false
  | a :: as => if a = c then true else containsChar c as

/-- Python `s.replace(old, new, 1)` for single-character arguments:
replace the first occurrence of `old` by `new`. -/
def replaceFirst (old new : Char) : List Char → List Char
  | [] => []
  | a :: as => if a = old then new :: as else a :: replaceFirst old new as

/-- Truncate a request target at the first `?`, as the static handler does
when turning a target into a filesystem path. -/
def stripQuery : List Char → List Char
  | [] => []
  | a :: as => if a = '?' then [] else a :: stripQuery as

/-- The literal `'/'` target tested on line 19 of serve.py. -/
def rootPath : List Char := str "/"

/-- The literal prefix `'/?token='` tested on line 19 of serve.py. -/
def tokenQuery : List Char := str "/?token="

/-- The literal `'/public/simple-connect.html'` used on line 20 of serve.py. -/
def connectPage : List Char := str "/public/simple-connect.html"

/-- The path rewrite of `MyHTTPRequestHandler.do_GET` (serve.py lines 19-20):
the update applied to `self.path` before delegating to the static handler. -/
def rewrite (p : List Char) : List Char :=
  if p = rootPath ∨ startsWith tokenQuery p = true then
    if containsChar '?' p = true then connectPage ++ replaceFirst '/' '?' p
    else connectPage
  else p

/-- Modelled from the spec: the filesystem visible to the static handler, a
finite map from request paths to file contents plus the set of directories
(none of which holds an index file; the repository root has none). -/
structure FS where
  files : List (List Char × List Char)
  dirs : List (List Char)

/-- The body of an HTTP response produced by the static handler. -/
inductive Body where
  | fileContent : List Char → Body
  | dirListing : List Char → Body
  | errorPage : Body
deriving DecidableEq

/-- An HTTP response: status code and body. -/
structure Response where
  status : Nat
  body : Body
deriving DecidableEq

/-- First-match lookup of a path among the files. -/
def lookupFile : List (List Char × List Char) → List Char → Option (List Char)
  | [], _ => none
  | (k, v) :: rest, p => if k = p then some v else lookupFile rest p

/-- Membership of a path among the directories. -/
def containsPath (p : List Char) : List (List Char) → Bool
  | [] => false
  | d :: ds => if d = p then true else containsPath p ds

/-- Modelled from the spec: the generic static-file-serving routine that
`do_GET` delegates to (`http.server.SimpleHTTPRequestHandler`, not in the
repository).  Per the spec it "resolves the path against a fixed root
directory and streams the corresponding file ... or returns a not-found
response"; the query part of the target is truncated at the first `?`, a
directory without an index file yields a listing with status 200, and a
path that is neither a file nor a directory yields status 404. -/
def serveStatic (fs : FS) (target : List Char) : Response :=
  match lookupFile fs.files (stripQuery target) with
  | some data => ⟨200, Body.fileContent data⟩
  | none =>
    if containsPath (stripQuery target) fs.dirs = true then
      ⟨200, Body.dirListing (stripQuery target)⟩
    else ⟨404, Body.errorPage⟩

/-- `MyHTTPRequestHandler.do_GET` (serve.py lines 17-21): rewrite the
target, then delegate to the static handler. -/
def do_GET (fs : FS) (target : List Char) : Response :=
  serveStatic fs (rewrite target)

/-- Handling one request returns the response and the filesystem after the
request; `do_GET` only reads, so the filesystem is returned unchanged. -/
def handleRequest (fs : FS) (target : List Char) : Response × FS :=
  (do_GET fs target, fs)

/-- The filesystem state after serving a sequence of requests in order. -/
def runRequests (fs : FS) : List (List Char) → FS
  | [] => fs
  | t :: ts => runRequests (handleRequest fs t).2 ts

/-- The repository's filesystem as the spec describes it: the root
directory (containing serve.py) with a `public/` subdirectory holding
`simple-connect.html`, whose contents are the parameter. -/
def repoFS (content : List Char) : FS :=
  ⟨[(connectPage, content)], [rootPath, str "/public"]⟩

/-- Python `os.path.dirname` for POSIX paths: everything before the last
`/`, with trailing slashes stripped unless the result is all slashes. -/
def dirname (p : List Char) : List Char :=
  let head := (p.reverse.dropWhile (fun c => !decide (c = '/'))).reverse
  if head.all (fun c => decide (c = '/')) then head
  else (head.reverse.dropWhile (fun c => decide (c = '/'))).reverse

/-- `PORT = 8080` (serve.py line 10). -/
def PORT : Nat := 8080

/-- The host part of the listener address, `""` (serve.py line 23); the
empty host binds all interfaces. -/
def bindAddress : List Char := str ""

/-- The listener configuration fixed at startup. -/
structure ListenerConfig where
  port : Nat
  host : List Char
  rootDir : List Char
deriving DecidableEq

/-- The configuration built at startup from the entry point's own path:
`PORT`, the all-interfaces host, and `DIRECTORY = os.path.dirname(__file__)`
(serve.py lines 10-11, 23). -/
def mkConfig (entryPoint : List Char) : ListenerConfig :=
  ⟨PORT, bindAddress, dirname entryPoint⟩

/-- The whole server state: the listener configuration and the filesystem. -/
structure ServerState where
  config : ListenerConfig
  fs : FS

/-- One accept-serve step of the server loop: handle a request; the
configuration is never touched. -/
def stepServer (s : ServerState) (t : List Char) : Response × ServerState :=
  ((handleRequest s.fs t).1, ⟨s.config, (handleRequest s.fs t).2⟩)

/-- The server state after handling a sequence of requests. -/
def runServer (s : ServerState) : List (List Char) → ServerState
  | [] => s
  | t :: ts => runServer (stepServer s t).2 ts

/-! ## Helper lemmas -/

lemma startsWith_self_append (pre rest : List Char) :
    startsWith pre (pre ++ rest) = true := by
  induction pre with
  | nil => rfl
  | cons a as ih => simp [startsWith, ih]

lemma stripQuery_append_q (xs ys : List Char) (h : containsChar '?' xs = false) :
    stripQuery (xs ++ '?' :: ys) = xs := by
  induction xs with
  | nil => simp [stripQuery]
  | cons a as ih =>
    rw [containsChar] at h
    by_cases ha : a = '?'
    · rw [if_pos ha] at h; exact absurd h (by simp)
    · rw [if_neg ha] at h
      rw [List.cons_append, stripQuery, if_neg ha, ih h]

lemma rewrite_root : rewrite rootPath = connectPage := by decide

lemma rewrite_token (rest : List Char) :
    rewrite (tokenQuery ++ rest) =
      connectPage ++ ('?' :: '?' :: 't' :: 'o' :: 'k' :: 'e' :: 'n' :: '=' :: rest) := by
  have h1 : startsWith tokenQuery (tokenQuery ++ rest) = true :=
    startsWith_self_append tokenQuery rest
  have h2 : containsChar '?' (tokenQuery ++ rest) = true := by
    show containsChar '?' ('/' :: '?' :: 't' :: 'o' :: 'k' :: 'e' :: 'n' :: '=' :: rest) = true
    simp [containsChar]
  unfold rewrite
  rw [if_pos (Or.inr h1), if_pos h2]
  show connectPage ++
      replaceFirst '/' '?' ('/' :: '?' :: 't' :: 'o' :: 'k' :: 'e' :: 'n' :: '=' :: rest) = _
  simp [replaceFirst]

lemma rewrite_of_neither (t : List Char) (h1 : ¬ t = rootPath)
    (h2 : ¬ startsWith tokenQuery t = true) : rewrite t = t := by
  unfold rewrite
  rw [if_neg]
  intro hc
  exact hc.elim h1 h2

lemma serveStatic_of_lookup (fs : FS) (t content : List Char)
    (h : lookupFile fs.files (stripQuery t) = some content) :
    serveStatic fs t = ⟨200, Body.fileContent content⟩ := by
  unfold serveStatic
  rw [h]

lemma serveStatic_404 (fs : FS) (t : List Char)
    (h1 : lookupFile fs.files (stripQuery t) = none)
    (h2 : containsPath (stripQuery t) fs.dirs = false) :
    serveStatic fs t = ⟨404, Body.errorPage⟩ := by
  unfold serveStatic
  rw [h1, h2]
  simp

lemma serveStatic_dir (fs : FS) (t : List Char)
    (h1 : lookupFile fs.files (stripQuery t) = none)
    (h2 : containsPath (stripQuery t) fs.dirs = true) :
    serveStatic fs t = ⟨200, Body.dirListing (stripQuery t)⟩ := by
  unfold serveStatic
  rw [h1, h2]
  simp

lemma runRequests_id (ts : List (List Char)) (fs : FS) : runRequests fs ts = fs := by
  induction ts generalizing fs with
  | nil => rfl
  | cons t ts ih => exact ih fs

lemma runServer_config (ts : List (List Char)) (s : ServerState) :
    (runServer s ts).config = s.config := by
  induction ts generalizing s with
  | nil => rfl
  | cons t ts ih => exact ih _

/-! ## Claims -/

/-- C1, counterexample: the rewrite of the target `/?token=x` is not
`/public/simple-connect.html?token=x` with a single `?` separator, as the
claim states. -/
theorem c1_counterexample :
    ¬ rewrite (str "/?token=x") = str "/public/simple-connect.html?token=x" := by
  decide

/-- C1 (amended): for every request whose target starts with `/?token=`,
the rewrite produces `/public/simple-connect.html` followed by the target
with its leading `/` replaced by `?`, i.e. the original query string
reconnected with TWO consecutive `?` characters:
`rewrite (/?token= ++ rest) = /public/simple-connect.html??token= ++ rest`. -/
theorem c1_rewrite_token_target (rest : List Char) :
    rewrite (tokenQuery ++ rest) = connectPage ++ (str "??token=" ++ rest) := by
  rw [rewrite_token]
  exact rfl

/-- C2: a request to the exact path `/` is rewritten to
`/public/simple-connect.html`, and when that file exists the response is a
200 whose body is its contents. -/
theorem c2_root_serves_page (fs : FS) (content : List Char)
    (h : lookupFile fs.files connectPage = some content) :
    rewrite rootPath = connectPage ∧
      do_GET fs rootPath = ⟨200, Body.fileContent content⟩ := by
  refine ⟨rewrite_root, ?_⟩
  unfold do_GET
  rw [rewrite_root]
  apply serveStatic_of_lookup
  rw [show stripQuery connectPage = connectPage from by decide]
  exact h

/-- Witness for C2 at the repository filesystem with page contents "hi". -/
theorem c2_witness :
    lookupFile (repoFS (str "hi")).files connectPage = some (str "hi") ∧
    (rewrite rootPath = connectPage ∧
      do_GET (repoFS (str "hi")) rootPath = ⟨200, Body.fileContent (str "hi")⟩) :=
  ⟨by decide, c2_root_serves_page (repoFS (str "hi")) (str "hi") (by decide)⟩

/-- C3: for every string `T`, a request to `/?token=` ++ `T` yields a
response whose body is the contents of `public/simple-connect.html`; `T`
is never inspected. -/
theorem c3_any_token_value (T : List Char) (fs : FS) (content : List Char)
    (h : lookupFile fs.files connectPage = some content) :
    (do_GET fs (tokenQuery ++ T)).body = Body.fileContent content := by
  have hs : stripQuery
      (connectPage ++ ('?' :: '?' :: 't' :: 'o' :: 'k' :: 'e' :: 'n' :: '=' :: T)) =
      connectPage :=
    stripQuery_append_q connectPage _ (by decide)
  unfold do_GET
  rw [rewrite_token T, serveStatic_of_lookup fs _ content (by rw [hs]; exact h)]

/-- Witness for C3 at `T = "abc"` on the repository filesystem. -/
theorem c3_witness :
    lookupFile (repoFS (str "hi")).files connectPage = some (str "hi") ∧
    (do_GET (repoFS (str "hi")) (tokenQuery ++ str "abc")).body =
      Body.fileContent (str "hi") :=
  ⟨by decide, c3_any_token_value (str "abc") (repoFS (str "hi")) (str "hi") (by decide)⟩

/-- C4: every target that is neither exactly `/` nor prefixed by `/?token=`
passes through the rewrite unchanged; in particular `/foo?token=abc` is
not rewritten and yields status 404 on the repository filesystem. -/
theorem c4_identity_otherwise (t content : List Char)
    (h1 : ¬ t = rootPath) (h2 : ¬ startsWith tokenQuery t = true) :
    rewrite t = t ∧
      (do_GET (repoFS content) (str "/foo?token=abc")).status = 404 := by
  refine ⟨rewrite_of_neither t h1 h2, ?_⟩
  have hr : rewrite (str "/foo?token=abc") = str "/foo?token=abc" := by decide
  have hl : lookupFile (repoFS content).files (stripQuery (str "/foo?token=abc")) = none := by
    show lookupFile [(connectPage, content)] (str "/foo") = none
    unfold lookupFile
    rw [if_neg (by decide)]
    exact rfl
  have hd : containsPath (stripQuery (str "/foo?token=abc")) (repoFS content).dirs = false := by
    show containsPath (str "/foo") [rootPath, str "/public"] = false
    decide
  unfold do_GET
  rw [hr, serveStatic_404 (repoFS content) (str "/foo?token=abc") hl hd]

/-- Witness for C4 at the target `/x`. -/
theorem c4_witness :
    (¬ str "/x" = rootPath) ∧ (¬ startsWith tokenQuery (str "/x") = true) ∧
    (rewrite (str "/x") = str "/x" ∧
      (do_GET (repoFS (str "c")) (str "/foo?token=abc")).status = 404) :=
  ⟨by decide, by decide,
    c4_identity_otherwise (str "/x") (str "c") (by decide) (by decide)⟩

/-- C5: for every filesystem, a GET of `/public/simple-connect.html`
directly produces the same response as a GET of `/`: both resolve to the
same file lookup. -/
theorem c5_direct_equals_root (fs : FS) :
    do_GET fs connectPage = do_GET fs rootPath := by
  unfold do_GET
  rw [show rewrite connectPage = rewrite rootPath from by decide]

/-- C6: a request to a path that matches no rewrite rule and is neither a
file nor a directory yields status 404; the filesystem state is unchanged
and every subsequent request gets the same response it would have gotten
before. -/
theorem c6_nonexistent_404 (fs : FS) (t : List Char)
    (h1 : lookupFile fs.files (stripQuery t) = none)
    (h2 : containsPath (stripQuery t) fs.dirs = false)
    (h3 : rewrite t = t) :
    (handleRequest fs t).1.status = 404 ∧ (handleRequest fs t).2 = fs ∧
      ∀ u : List Char, do_GET (handleRequest fs t).2 u = do_GET fs u := by
  refine ⟨?_, rfl, fun u => rfl⟩
  show (do_GET fs t).status = 404
  unfold do_GET
  rw [h3, serveStatic_404 fs t h1 h2]

/-- Witness for C6 at `/does-not-exist.html` on the repository filesystem. -/
theorem c6_witness :
    lookupFile (repoFS (str "c")).files (stripQuery (str "/does-not-exist.html")) = none ∧
    containsPath (stripQuery (str "/does-not-exist.html")) (repoFS (str "c")).dirs = false ∧
    rewrite (str "/does-not-exist.html") = str "/does-not-exist.html" ∧
    (handleRequest (repoFS (str "c")) (str "/does-not-exist.html")).1.status = 404 :=
  ⟨by decide, by decide, by decide,
    (c6_nonexistent_404 (repoFS (str "c")) (str "/does-not-exist.html")
      (by decide) (by decide) (by decide)).1⟩

/-- C7: the response to a target is a pure function of the target and the
initial filesystem: handling any sequence of prior requests leaves it
unchanged, so the rewrite and the resulting response are independent of
history and process state. -/
theorem c7_rewrite_history_independent (fs : FS) (prior : List (List Char)) (t : List Char) :
    (handleRequest (runRequests fs prior) t).1 = (handleRequest fs t).1 := by
  rw [runRequests_id]

/-- C8: the listener configuration is port 8080 on all interfaces (empty
host) with root directory the directory of the entry point, and it is
preserved across every handled request. -/
theorem c8_listener_config (entryPoint : List Char) (fs : FS) (ts : List (List Char)) :
    (mkConfig entryPoint).port = 8080 ∧
    (mkConfig entryPoint).host = str "" ∧
    (mkConfig entryPoint).rootDir = dirname entryPoint ∧
    (runServer ⟨mkConfig entryPoint, fs⟩ ts).config = mkConfig entryPoint :=
  ⟨rfl, rfl, rfl, runServer_config ts ⟨mkConfig entryPoint, fs⟩⟩

/-- C9: for every target `/?token=` ++ rest, the rewritten string is
literally `/public/simple-connect.html` ++ `??token=` ++ rest (two
consecutive `?`, from replacing the leading `/`); the static handler
truncates at the first `?`, so the file served is still
`public/simple-connect.html`. -/
theorem c9_double_question (rest : List Char) (fs : FS) (content : List Char)
    (h : lookupFile fs.files connectPage = some content) :
    rewrite (tokenQuery ++ rest) = connectPage ++ (str "??token=" ++ rest) ∧
    stripQuery (rewrite (tokenQuery ++ rest)) = connectPage ∧
    (do_GET fs (tokenQuery ++ rest)).body = Body.fileContent content := by
  have hr := rewrite_token rest
  have hs : stripQuery
      (connectPage ++ ('?' :: '?' :: 't' :: 'o' :: 'k' :: 'e' :: 'n' :: '=' :: rest)) =
      connectPage :=
    stripQuery_append_q connectPage _ (by decide)
  refine ⟨by rw [hr]; exact rfl, by rw [hr]; exact hs, ?_⟩
  unfold do_GET
  rw [hr, serveStatic_of_lookup fs _ content (by rw [hs]; exact h)]

/-- Witness for C9 at rest = "x" on the repository filesystem. -/
theorem c9_witness :
    lookupFile (repoFS (str "hi")).files connectPage = some (str "hi") ∧
    (rewrite (tokenQuery ++ str "x") = connectPage ++ (str "??token=" ++ str "x") ∧
     stripQuery (rewrite (tokenQuery ++ str "x")) = connectPage ∧
     (do_GET (repoFS (str "hi")) (tokenQuery ++ str "x")).body =
       Body.fileContent (str "hi")) :=
  ⟨by decide, c9_double_question (str "x") (repoFS (str "hi")) (str "hi") (by decide)⟩

/-- C10: a root request whose query does not start with `token=` is not
rewritten; the static handler strips the query, resolves `/`, and returns
the directory listing of the root with status 200. -/
theorem c10_root_other_query (q content : List Char)
    (h : startsWith (str "token=") q = false) :
    rewrite (str "/?" ++ q) = str "/?" ++ q ∧
    do_GET (repoFS content) (str "/?" ++ q) = ⟨200, Body.dirListing rootPath⟩ := by
  have h1 : ¬ (str "/?" ++ q) = rootPath := by
    show ¬ ('/' :: '?' :: q) = ['/']
    intro hc
    injection hc with _ hc2
    exact List.cons_ne_nil '?' q hc2
  have h2 : ¬ startsWith tokenQuery (str "/?" ++ q) = true := by
    have he : startsWith tokenQuery (str "/?" ++ q) = startsWith (str "token=") q := by
      show startsWith ('/' :: '?' :: str "token=") ('/' :: '?' :: q) = _
      simp [startsWith]
    rw [he, h]
    simp
  have hr : rewrite (str "/?" ++ q) = str "/?" ++ q := rewrite_of_neither _ h1 h2
  refine ⟨hr, ?_⟩
  have hs : stripQuery (str "/?" ++ q) = rootPath := by
    show stripQuery ('/' :: '?' :: q) = ['/']
    simp [stripQuery]
  have hl : lookupFile (repoFS content).files (stripQuery (str "/?" ++ q)) = none := by
    rw [hs]
    show lookupFile [(connectPage, content)] rootPath = none
    unfold lookupFile
    rw [if_neg (by decide)]
    exact rfl
  have hd : containsPath (stripQuery (str "/?" ++ q)) (repoFS content).dirs = true := by
    rw [hs]
    show containsPath rootPath [rootPath, str "/public"] = true
    decide
  unfold do_GET
  rw [hr, serveStatic_dir (repoFS content) (str "/?" ++ q) hl hd, hs]

/-- Witness for C10 at query "foo=1" on the repository filesystem. -/
theorem c10_witness :
    startsWith (str "token=") (str "foo=1") = false ∧
    (rewrite (str "/?" ++ str "foo=1") = str "/?" ++ str "foo=1" ∧
     do_GET (repoFS (str "c")) (str "/?" ++ str "foo=1") =
       ⟨200, Body.dirListing rootPath⟩) :=
  ⟨by decide, c10_root_other_query (str "foo=1") (str "c") (by decide)⟩
